import Mathlib

/-!
Shallow embedding of `stock.py` from the trytond-endicia-integration
repository: the `ShipmentOut` / `StockMove` extensions and the refund,
SCAN-form and buy-postage wizards.

Conventions of the embedding:
* Python numbers (floats, Decimals) are modelled as `Rat`; `math.ceil`
  is `Rat.ceil` (an `Int`).
* `raise_user_error(key)` is modelled as returning `Except.error (.user key)`;
  a Python crash that is not a user error (the `NameError` on the loop
  variable when the wizard is run with an empty selection) is `.pyNameError`.
* The vendor API (`send_request`) is an external synchronous call; each
  function that performs one is parametrised by the vendor's behaviour
  (a function from the assembled request to the response).  "Before any
  vendor call" is then expressed as: the result does not depend on that
  parameter.
* Host-ERP collaborators (`ProductUom.compute_qty`, the unique uom with
  symbol 'oz' found by `ProductUom.search`, credentials from
  `endicia.configuration`, base64 decoding) are modelled as an explicit
  environment `Env`.
-/

namespace Endicia

/-- A unit of measure of the host ERP: a symbol and a conversion factor to
the base unit of its category.  `ProductUom.compute_qty` converts through
the factors. -/
structure Uom where
  symbol : String
  factor : Rat
deriving DecidableEq, Repr

namespace ProductUom

/-- Host-ERP unit conversion: `compute_qty(from_uom, qty, to_uom)` expresses
`qty` units of `fromU` in units of `toU` via their factors. -/
def compute_qty (fromU : Uom) (qty : Rat) (toU : Uom) : Rat :=
  qty * fromU.factor / toU.factor

end ProductUom

/-- `product.type` ('goods' | 'assets' | 'service' in the host ERP). -/
inductive ProductType
  | goods
  | assets
  | service
deriving DecidableEq, Repr

/-- The slice of a host-ERP product that `stock.py` reads. `weight = none`
models an unset weight; Python's `if not self.product.weight` is also true
for a stored weight of 0, which `weightFalsy` reflects. -/
structure Product where
  name : String
  type : ProductType
  weight : Option Rat
  default_uom : Uom
  weight_uom : Uom
  list_price : Rat
  cost_price : Rat
deriving DecidableEq, Repr

/-- Python truthiness of `self.product.weight`. -/
def Product.weightFalsy (p : Product) : Bool :=
  match p.weight with
  | none => true
  | some w => w == 0

/-- The slice of a host-ERP stock move that `stock.py` reads. -/
structure StockMove where
  product : Product
  uom : Uom
  quantity : Rat
deriving DecidableEq, Repr

/-- A carrier record; `stock.py` only reads `carrier_cost_method`. -/
structure Carrier where
  carrier_cost_method : String
deriving DecidableEq, Repr

/-- An `endicia.mailclass` record; the code reads its `value`. -/
structure MailClass where
  value : String
deriving DecidableEq, Repr

/-- The slice of a party address that `stock.py` reads. -/
structure Address where
  id : Int
  zip : String
  country_code : String
deriving DecidableEq, Repr

/-- Keys of `raise_user_error` messages registered in `stock.py`. -/
inductive UserError
  | warehouse_address_required
  | mailclass_missing
  | error_label (msg : String)
  | tracking_number_already_present
  | invalid_state
  | wrong_carrier
  | weight_required (product_name : String)
deriving DecidableEq, Repr

/-- Outcome of running a method: either a raised user error, or a Python
crash that is not a user error (the `AttributeError` on reading the zip of
a missing warehouse address, or the `NameError` a wizard hits when its loop
ran over an empty selection and the loop variable is then read). -/
inductive Err
  | user (e : UserError)
  | pyError
deriving DecidableEq, Repr

/-- Credentials returned by `EndiciaConfiguration(1).get_endicia_credentials()`
(external module, taken as given). -/
structure EndiciaCredentials where
  account_id : Int
  requester_id : String
  passphrase : String
  is_test : Bool

/-- External collaborators: the unique uom whose symbol is 'oz' (result of
`ProductUom.search([('symbol', '=', 'oz')])`), the Endicia credentials, and
base64 decoding of label payloads. -/
structure Env where
  ozUom : Uom
  credentials : EndiciaCredentials
  base64decode : String → String

/-- Tryton shipment states relevant to `stock.shipment.out`. -/
inductive ShipmentState
  | draft
  | waiting
  | assigned
  | packed
  | done
  | cancel
deriving DecidableEq, Repr

/-- The slice of a `stock.shipment.out` record read and written by
`stock.py`.  `tracking_number = none` models an unset Char field; Python
truthiness (`if self.tracking_number`) is also false for an empty string. -/
structure ShipmentOut where
  id : Int
  state : ShipmentState
  carrier : Option Carrier
  tracking_number : Option String
  endicia_mailclass : Option MailClass
  endicia_label_subtype : String
  endicia_integrated_form_type : String
  endicia_include_postage : Bool
  endicia_package_type : String
  endicia_refunded : Bool
  cost : Option Rat
  outgoing_moves : List StockMove
  warehouse_address : Option Address
  delivery_address : Address
deriving DecidableEq, Repr

/-- Python truthiness of `self.tracking_number`. -/
def ShipmentOut.trackingTruthy (s : ShipmentOut) : Bool :=
  match s.tracking_number with
  | none => false
  | some t => t ≠ ""

/-- `self.carrier and self.carrier.carrier_cost_method == 'endicia'`. -/
def carrierIsEndicia : Option Carrier → Bool
  | none => false
  | some c => c.carrier_cost_method == "endicia"

namespace StockMove

/-- `StockMove.get_weight_for_endicia` (stock.py lines 604-642): weight as
required for Endicia, upward rounded integral value in oz.  Service
products weigh 0; a falsy product weight raises `weight_required`; the
quantity is first expressed in the product's default uom, the per-unit
weight is multiplied by it, and the result converted to oz unless the
weight uom already has symbol 'oz'; finally `math.ceil`. -/
def get_weight_for_endicia (env : Env) (m : StockMove) : Except Err Int :=
  if m.product.type = ProductType.service then
    .ok 0
  else if m.product.weightFalsy then
    .error (.user (.weight_required m.product.name))
  else
    let quantity :=
      if m.uom ≠ m.product.default_uom then
        ProductUom.compute_qty m.uom m.quantity m.product.default_uom
      else
        m.quantity
    let weight := (m.product.weight.getD 0) * quantity
    let weight :=
      if m.product.weight_uom.symbol ≠ "oz" then
        ProductUom.compute_qty m.product.weight_uom weight env.ozUom
      else
        weight
    .ok weight.ceil

end StockMove

/-- `sum(map(lambda move: move.get_weight_for_endicia(), moves))`: the
lambda is applied eagerly left to right (Python 2 `map`), so the first
raised `weight_required` propagates. -/
def sumWeights (env : Env) : List StockMove → Except Err Int
  | [] => .ok 0
  | m :: rest =>
    match m.get_weight_for_endicia env with
    | .error e => .error e
    | .ok w =>
      match sumWeights env rest with
      | .error e => .error e
      | .ok s => .ok (w + s)

/-- `'International' in mailclass`: Python substring membership. -/
def strContains (s pat : String) : Bool :=
  (s.splitOn pat).length != 1

/-- The `LabelRequest` object assembled in `make_endicia_labels` (the image
format/size/resolution/rotation arguments are literal constants). -/
structure LabelRequestData where
  test : String
  labelType : String
deriving DecidableEq, Repr

/-- The observable content of the `ShippingLabelAPI` request assembled by
`make_endicia_labels`: label request, total weight in oz, mail class,
partner ids, label subtype / postage flags, the integrated form type when
the subtype is not 'None', and the package content type sent with the
customs data by `_update_endicia_item_details` (which also adds customs
items built from the moves and raises no error of its own: the per-move
weights were already computed for `weight_oz`). -/
structure ShippingLabelRequest where
  label_request : LabelRequestData
  weight_oz : Int
  partner_customer_id : Int
  partner_transaction_id : Int
  mail_class : String
  labelSubtype : String
  includePostage : String
  integratedFormType : Option String
  contentsType : String
deriving DecidableEq, Repr

/-- The fields of the objectified vendor response to a shipping label
request that `make_endicia_labels` reads: tracking number, final postage,
and the `(id, base64 image)` pairs returned by `get_images`. -/
structure LabelResponse where
  trackingNumber : String
  finalPostage : Rat
  images : List (String × String)
deriving DecidableEq, Repr

/-- An `ir.attachment` record created by `stock.py`. -/
structure Attachment where
  name : String
  data : String
  resource : String
deriving DecidableEq, Repr

/-- The effect of a successful `make_endicia_labels`: the updated shipment
record, the attachments created, and the returned tracking number. -/
structure LabelResult where
  shipment : ShipmentOut
  attachments : List Attachment
  returned : String
deriving DecidableEq, Repr

namespace ShipmentOut

/-- `ShipmentOut.make_endicia_labels` (stock.py lines 192-292).  Checks, in
order: state in packed/done, carrier set with cost method 'endicia', no
tracking number yet, mail class set; then the per-move weights are computed
eagerly (Python 2 `map`), then the warehouse address must be set; only then
is the assembled request sent to the vendor.  A vendor `RequestError` is
re-raised as the `error_label` user error; on success the tracking number
and the final postage (as a Decimal) are written to the shipment, one
attachment is created per label image, and the tracking number returned. -/
def make_endicia_labels (env : Env) (s : ShipmentOut)
    (vendor : ShippingLabelRequest → Except String LabelResponse) :
    Except Err LabelResult :=
  if ¬ (s.state = .packed ∨ s.state = .done) then
    .error (.user .invalid_state)
  else if ¬ carrierIsEndicia s.carrier then
    .error (.user .wrong_carrier)
  else if s.trackingTruthy then
    .error (.user .tracking_number_already_present)
  else
    match s.endicia_mailclass with
    | none => .error (.user .mailclass_missing)
    | some mc =>
      let mailclass := mc.value
      let label_request : LabelRequestData :=
        { test := if env.credentials.is_test then "YES" else "NO"
          labelType :=
            if strContains mailclass "International" then "International"
            else "Default" }
      match sumWeights env s.outgoing_moves with
      | .error e => .error e
      | .ok weight_oz =>
        let request : ShippingLabelRequest :=
          { label_request := label_request
            weight_oz := weight_oz
            partner_customer_id := s.delivery_address.id
            partner_transaction_id := s.id
            mail_class := mailclass
            labelSubtype := s.endicia_label_subtype
            includePostage := if s.endicia_include_postage then "TRUE" else "FALSE"
            integratedFormType :=
              if s.endicia_label_subtype ≠ "None" then
                some s.endicia_integrated_form_type
              else none
            contentsType := s.endicia_package_type }
        match s.warehouse_address with
        | none => .error (.user .warehouse_address_required)
        | some _addr =>
          match vendor request with
          | .error error => .error (.user (.error_label error))
          | .ok result =>
            let tracking_number := result.trackingNumber
            .ok
              { shipment :=
                  { s with
                    tracking_number := some tracking_number
                    cost := some result.finalPostage }
                attachments :=
                  result.images.map fun img =>
                    { name := tracking_number ++ "_" ++ img.1 ++ "_USPS-Endicia.png"
                      data := env.base64decode img.2
                      resource := "stock.shipment.out," ++ toString s.id }
                returned := tracking_number }

/-- The `CalculatingPostageAPI` request assembled by
`get_endicia_shipping_cost`. -/
structure PostageRequest where
  mailclass : String
  weightoz : Int
  from_postal_code : String
  to_postal_code : String
  to_country_code : String
deriving DecidableEq, Repr

/-- `ShipmentOut.get_endicia_shipping_cost` (stock.py lines 294-323):
requires a mail class, assembles a postage calculation request with the
summed move weights and the truncated postal codes, sends it, and returns
`Decimal(response.PostagePrice.TotalAmount)`.  `self.warehouse.address.zip`
is read without a guard, so a missing warehouse address is a Python crash,
not a user error; the vendor's decimal total is modelled as a `Rat`. -/
def get_endicia_shipping_cost (env : Env) (s : ShipmentOut)
    (vendor : PostageRequest → Rat) : Except Err Rat :=
  match s.endicia_mailclass with
  | none => .error (.user .mailclass_missing)
  | some mc =>
    match sumWeights env s.outgoing_moves with
    | .error e => .error e
    | .ok weightoz =>
      match s.warehouse_address with
      | none => .error .pyError
      | some waddr =>
        let request : PostageRequest :=
          { mailclass := mc.value
            weightoz := weightoz
            from_postal_code := waddr.zip.take 5
            to_postal_code := s.delivery_address.zip.take 5
            to_country_code := s.delivery_address.country_code }
        .ok (vendor request)

end ShipmentOut

/-- The carrier-checking loop shared by the refund and SCAN-form wizards
(stock.py lines 412-419 and 500-507): each selected shipment must have a
carrier with cost method 'endicia', else `wrong_carrier` is raised at the
first offender; the tracking numbers are collected as the PIC numbers for
the vendor request. -/
def collectPicNumbers : List ShipmentOut → Except Err (List (Option String))
  | [] => .ok []
  | sh :: rest =>
    if ¬ carrierIsEndicia sh.carrier then
      .error (.user .wrong_carrier)
    else
      match collectPicNumbers rest with
      | .error e => .error e
      | .ok pics => .ok (sh.tracking_number :: pics)

/-- The fields of the objectified refund response that the wizard reads:
`result.RefundList.PICNumber.IsApproved` and the matching `ErrorMsg`. -/
structure RefundResponse where
  isApproved : String
  errorMsg : String
deriving DecidableEq, Repr

/-- The effect of `default_request_refund`: the post-states of the selected
shipments and the defaults shown in the wizard view. -/
structure RefundResult where
  shipments : List ShipmentOut
  refund_status : String
  refund_approved : Bool
deriving DecidableEq, Repr

namespace EndiciaRefundRequestWizard

/-- `EndiciaRefundRequestWizard.default_request_refund` (stock.py lines
395-445).  Every selected shipment must have an Endicia carrier; the
collected tracking numbers are sent as PIC numbers.  When the response's
`IsApproved` is 'YES', `endicia_refunded` is written on `[shipment]` where
`shipment` is the Python loop variable, i.e. on the LAST selected shipment
only (a `NameError` if the selection was empty); in both branches the
response's `ErrorMsg` becomes the displayed refund status. -/
def default_request_refund (shipments : List ShipmentOut)
    (vendor : List (Option String) → RefundResponse) :
    Except Err RefundResult :=
  match collectPicNumbers shipments with
  | .error e => .error e
  | .ok pic_numbers =>
    let result := vendor pic_numbers
    if result.isApproved = "YES" then
      match shipments.getLast? with
      | none => .error .pyError
      | some lastSh =>
        .ok
          { shipments :=
              shipments.map fun sh =>
                if sh.id = lastSh.id then { sh with endicia_refunded := true }
                else sh
            refund_status := result.errorMsg
            refund_approved := true }
    else
      .ok
        { shipments := shipments
          refund_status := result.errorMsg
          refund_approved := false }

end EndiciaRefundRequestWizard

/-- The fields of the objectified SCAN-form response the wizard reads:
`SCANForm` when present (`hasattr`), `SubmissionID`, `ErrorMsg`. -/
structure ScanResponse where
  scanForm : Option String
  submissionID : String
  errorMsg : String
deriving DecidableEq, Repr

/-- The effect of `default_make_scanform`: attachments created and the
text displayed in the wizard view. -/
structure ScanResult where
  attachments : List Attachment
  response : String
deriving DecidableEq, Repr

namespace SCANFormWizard

/-- `SCANFormWizard.default_make_scanform` (stock.py lines 483-529).  Same
carrier check and PIC-number collection as the refund wizard; when the
response carries no `SCANForm` attribute the vendor's `ErrorMsg` is
displayed, otherwise the decoded form is stored as an attachment named
'SCAN<SubmissionID>.png' on the last selected shipment (the leaked loop
variable) and the displayed text is 'SCAN' + SubmissionID. -/
def default_make_scanform (env : Env) (shipments : List ShipmentOut)
    (vendor : List (Option String) → ScanResponse) :
    Except Err ScanResult :=
  match collectPicNumbers shipments with
  | .error e => .error e
  | .ok pic_numbers =>
    let result := vendor pic_numbers
    match result.scanForm with
    | none => .ok { attachments := [], response := result.errorMsg }
    | some form =>
      match shipments.getLast? with
      | none => .error .pyError
      | some lastSh =>
        .ok
          { attachments :=
              [{ name := "SCAN" ++ result.submissionID ++ ".png"
                 data := env.base64decode form
                 resource := "stock.shipment.out," ++ toString lastSh.id }]
            response := "SCAN" ++ result.submissionID }

end SCANFormWizard

/-- The field of the objectified buy-postage response the wizard reads:
`ErrorMessage` when present (`hasattr`). -/
structure PostageResponse where
  errorMessage : Option String
deriving DecidableEq, Repr

/-- The defaults `default_buy_postage` returns for the wizard view. -/
structure BuyPostageResult where
  company : Int
  amount : Rat
  response : String
deriving DecidableEq, Repr

namespace BuyPostageWizard

/-- `BuyPostageWizard.default_buy_postage` (stock.py lines 565-589): sends
a recredit request for the entered amount, then echoes the entered company
and amount back and displays the response's `ErrorMessage` when it has
one, 'Success' otherwise. -/
def default_buy_postage (company : Int) (amount : Rat)
    (vendor : Rat → PostageResponse) : BuyPostageResult :=
  let result := vendor amount
  { company := company
    amount := amount
    response :=
      match result.errorMessage with
      | some msg => msg
      | none => "Success" }

end BuyPostageWizard

/-! Concrete fixtures used to evaluate the definitions on closed inputs. -/

/-- The uom with symbol 'oz' (base of the weight category). -/
def ozU : Uom := { symbol := "oz", factor := 1 }

/-- Pounds: 16 oz. -/
def lbU : Uom := { symbol := "lb", factor := 16 }

/-- The base unit of the count category. -/
def unitU : Uom := { symbol := "u", factor := 1 }

/-- A dozen: 12 units. -/
def dozenU : Uom := { symbol := "dz", factor := 12 }

/-- A concrete environment: identity base64 decoding keeps payloads
observable. -/
def testEnv : Env :=
  { ozUom := ozU
    credentials := { account_id := 123, requester_id := "req", passphrase := "pw", is_test := true }
    base64decode := fun s => s }

/-- A goods product weighing 3 lb per unit. -/
def widget : Product :=
  { name := "Widget", type := .goods, weight := some 3
    default_uom := unitU, weight_uom := lbU, list_price := 10, cost_price := 5 }

/-- A goods product with no weight set. -/
def weightlessWidget : Product :=
  { name := "Anvil", type := .goods, weight := none
    default_uom := unitU, weight_uom := lbU, list_price := 7, cost_price := 4 }

/-- A service product, deliberately with no weight. -/
def serviceProduct : Product :=
  { name := "Gift wrap", type := .service, weight := none
    default_uom := unitU, weight_uom := lbU, list_price := 2, cost_price := 1 }

/-- One dozen widgets: 12 units of 0.3 lb = 3.6 lb = 57.6 oz, ceiling 58. -/
def widgetMove : StockMove := { product := widget, uom := dozenU, quantity := 1 }

/-- A move of the weightless product. -/
def anvilMove : StockMove := { product := weightlessWidget, uom := unitU, quantity := 2 }

/-- A service move. -/
def serviceMove : StockMove := { product := serviceProduct, uom := unitU, quantity := 1 }

/-- The Endicia carrier. -/
def endiciaCarrier : Carrier := { carrier_cost_method := "endicia" }

/-- Some other carrier. -/
def upsCarrier : Carrier := { carrier_cost_method := "ups" }

/-- A delivery address. -/
def deliveryAddr : Address := { id := 42, zip := "94107-1234", country_code := "US" }

/-- A warehouse address. -/
def warehouseAddr : Address := { id := 7, zip := "10001", country_code := "US" }

/-- A shipment that passes every precondition of `make_endicia_labels`. -/
def readyShipment : ShipmentOut :=
  { id := 11
    state := .packed
    carrier := some endiciaCarrier
    tracking_number := none
    endicia_mailclass := some { value := "First" }
    endicia_label_subtype := "None"
    endicia_integrated_form_type := "Form2976"
    endicia_include_postage := false
    endicia_package_type := "Merchandise"
    endicia_refunded := false
    cost := none
    outgoing_moves := [widgetMove]
    warehouse_address := some warehouseAddr
    delivery_address := deliveryAddr }

/-- `readyShipment` with a single service move, so that the weight sum is
0 with no unit arithmetic. -/
def svcShipment : ShipmentOut := { readyShipment with outgoing_moves := [serviceMove] }

/-- A successful vendor label response with one label image. -/
def labelResp : LabelResponse :=
  { trackingNumber := "94001", finalPostage := 6, images := [("label1", "SU1HREFUQQ==")] }

/-! ## Claim theorems -/

/-- The weight claim C1 describes, written from the spec's words: the
product's per-unit weight times the quantity expressed in the product's
default uom, converted from the product's weight uom into ounces whenever
that uom's symbol is not 'oz', then rounded up. -/
def claimedEndiciaWeight (env : Env) (m : StockMove) : Int :=
  let quantity := ProductUom.compute_qty m.uom m.quantity m.product.default_uom
  let weight := (m.product.weight.getD 0) * quantity
  let weight :=
    if m.product.weight_uom.symbol ≠ "oz" then
      ProductUom.compute_qty m.product.weight_uom weight env.ozUom
    else
      weight
  weight.ceil

/-- C1: for every stock move of a non-service product whose weight is set
(truthy), `get_weight_for_endicia` returns the upward-rounded integral
ounce weight described by the claim: per-unit weight times the quantity in
the product's default uom, converted into ounces when the weight uom is
not 'oz'.  The move's uom factor being nonzero is the host-ERP invariant
making "the quantity expressed in the default uom" well defined. -/
theorem get_weight_for_endicia_correct (env : Env) (m : StockMove)
    (hserv : m.product.type ≠ ProductType.service)
    (hw : m.product.weightFalsy = false)
    (hf : m.uom.factor ≠ 0) :
    m.get_weight_for_endicia env = .ok (claimedEndiciaWeight env m) := by
  unfold StockMove.get_weight_for_endicia claimedEndiciaWeight
  rw [if_neg hserv, if_neg (by simp [hw])]
  by_cases huom : m.uom = m.product.default_uom
  · have hq : ProductUom.compute_qty m.product.default_uom m.quantity
        m.product.default_uom = m.quantity := by
      unfold ProductUom.compute_qty
      exact mul_div_cancel_right₀ m.quantity (huom ▸ hf)
    rw [if_neg (by simp [huom]), huom, hq]
  · rw [if_pos huom]

/-- C1 witness: the dozen-of-widgets move (a goods product with a set
weight, moved in a uom other than the product's default one) satisfies
every hypothesis and gets the claimed weight. -/
theorem get_weight_for_endicia_correct_witness :
    widgetMove.product.type ≠ ProductType.service ∧
    widgetMove.product.weightFalsy = false ∧
    widgetMove.uom.factor ≠ 0 ∧
    widgetMove.get_weight_for_endicia testEnv = .ok (claimedEndiciaWeight testEnv widgetMove) :=
  ⟨by decide, by decide, by decide,
   get_weight_for_endicia_correct testEnv widgetMove (by decide) (by decide) (by decide)⟩

/-- C9: a move of a service product weighs 0 for Endicia, with no error
raised, whatever the rest of the move (in particular with no product
weight set). -/
theorem service_move_weighs_zero (env : Env) (m : StockMove)
    (hserv : m.product.type = ProductType.service) :
    m.get_weight_for_endicia env = .ok 0 := by
  unfold StockMove.get_weight_for_endicia
  rw [if_pos hserv]

/-- C9 witness: the concrete service move, whose product has no weight,
contributes 0. -/
theorem service_move_weighs_zero_witness :
    serviceMove.get_weight_for_endicia testEnv = .ok 0 ∧
    serviceMove.product.weight = none :=
  ⟨service_move_weighs_zero testEnv serviceMove (by decide), by decide⟩

/-- A move that is not missing its weight (service, or truthy weight)
yields some weight without error. -/
theorem get_weight_ok_of_not_missing (env : Env) (m : StockMove)
    (h : ¬(m.product.type ≠ ProductType.service ∧ m.product.weightFalsy = true)) :
    ∃ w, m.get_weight_for_endicia env = .ok w := by
  unfold StockMove.get_weight_for_endicia
  by_cases hs : m.product.type = ProductType.service
  · exact ⟨0, by rw [if_pos hs]⟩
  · have hw : m.product.weightFalsy = false := by
      rcases Bool.eq_false_or_eq_true m.product.weightFalsy with hb | hb
      · exact absurd ⟨hs, hb⟩ h
      · exact hb
    exact ⟨_, by rw [if_neg hs, if_neg (by simp [hw])]⟩

/-- When some move's non-service product has a falsy weight, the eagerly
mapped weights raise `weight_required` for the first such product. -/
theorem sumWeights_error_of_missing (env : Env) (l : List StockMove)
    (h : ∃ m ∈ l, m.product.type ≠ ProductType.service ∧ m.product.weightFalsy = true) :
    ∃ n, sumWeights env l = .error (.user (.weight_required n)) := by
  induction l with
  | nil => simp at h
  | cons hd tl ih =>
    by_cases hbad : hd.product.type ≠ ProductType.service ∧ hd.product.weightFalsy = true
    · refine ⟨hd.product.name, ?_⟩
      unfold sumWeights StockMove.get_weight_for_endicia
      rw [if_neg hbad.1, if_pos (by simp [hbad.2])]
    · obtain ⟨w, hw⟩ := get_weight_ok_of_not_missing env hd hbad
      have htl : ∃ m ∈ tl, m.product.type ≠ ProductType.service ∧
          m.product.weightFalsy = true := by
        rcases h with ⟨m, hm, hprop⟩
        rcases List.mem_cons.mp hm with rfl | hmem
        · exact absurd hprop hbad
        · exact ⟨m, hmem, hprop⟩
      obtain ⟨n, hn⟩ := ih htl
      refine ⟨n, ?_⟩
      unfold sumWeights
      rw [hw, hn]

/-- C2: `make_endicia_labels` surfaces each missing precondition as a user
error whose value does not depend on the vendor (so before any vendor
call): with the state valid, a missing or non-Endicia carrier raises
`wrong_carrier`; then a tracking number already present raises
`tracking_number_already_present`; then a missing mail class raises
`mailclass_missing`; and then an outgoing move of a non-service product
with no weight set raises `weight_required` for such a product. -/
theorem make_endicia_labels_precondition_errors :
    (∀ (env : Env) (s : ShipmentOut) vendor,
      (s.state = ShipmentState.packed ∨ s.state = ShipmentState.done) →
      carrierIsEndicia s.carrier = false →
      s.make_endicia_labels env vendor = .error (.user .wrong_carrier)) ∧
    (∀ (env : Env) (s : ShipmentOut) vendor,
      (s.state = ShipmentState.packed ∨ s.state = ShipmentState.done) →
      carrierIsEndicia s.carrier = true →
      s.trackingTruthy = true →
      s.make_endicia_labels env vendor = .error (.user .tracking_number_already_present)) ∧
    (∀ (env : Env) (s : ShipmentOut) vendor,
      (s.state = ShipmentState.packed ∨ s.state = ShipmentState.done) →
      carrierIsEndicia s.carrier = true →
      s.trackingTruthy = false →
      s.endicia_mailclass = none →
      s.make_endicia_labels env vendor = .error (.user .mailclass_missing)) ∧
    (∀ (env : Env) (s : ShipmentOut) vendor mc,
      (s.state = ShipmentState.packed ∨ s.state = ShipmentState.done) →
      carrierIsEndicia s.carrier = true →
      s.trackingTruthy = false →
      s.endicia_mailclass = some mc →
      (∃ m ∈ s.outgoing_moves,
        m.product.type ≠ ProductType.service ∧ m.product.weightFalsy = true) →
      ∃ n, s.make_endicia_labels env vendor = .error (.user (.weight_required n))) := by
  refine ⟨?_, ?_, ?_, ?_⟩
  · intro env s vendor hstate hcar
    unfold ShipmentOut.make_endicia_labels
    rw [if_neg (by simp [hstate]), if_pos (by simp [hcar])]
  · intro env s vendor hstate hcar htr
    unfold ShipmentOut.make_endicia_labels
    rw [if_neg (by simp [hstate]), if_neg (by simp [hcar]), if_pos (by simp [htr])]
  · intro env s vendor hstate hcar htr hmc
    unfold ShipmentOut.make_endicia_labels
    rw [if_neg (by simp [hstate]), if_neg (by simp [hcar]), if_neg (by simp [htr]), hmc]
  · intro env s vendor mc hstate hcar htr hmc hmiss
    obtain ⟨n, hn⟩ := sumWeights_error_of_missing env s.outgoing_moves hmiss
    refine ⟨n, ?_⟩
    unfold ShipmentOut.make_endicia_labels
    rw [if_neg (by simp [hstate]), if_neg (by simp [hcar]), if_neg (by simp [htr]), hmc, hn]

/-- C2 witness: four concrete packed shipments, failing respectively the
carrier, tracking-number, mail-class and weight preconditions, each
rejected with the corresponding user error for a vendor that would answer
successfully. -/
theorem make_endicia_labels_precondition_errors_witness :
    (ShipmentOut.make_endicia_labels testEnv { readyShipment with carrier := some upsCarrier }
      (fun _ => .ok { trackingNumber := "T1", finalPostage := 5, images := [] }) =
      .error (.user .wrong_carrier)) ∧
    (ShipmentOut.make_endicia_labels testEnv { readyShipment with tracking_number := some "TRK9" }
      (fun _ => .ok { trackingNumber := "T1", finalPostage := 5, images := [] }) =
      .error (.user .tracking_number_already_present)) ∧
    (ShipmentOut.make_endicia_labels testEnv { readyShipment with endicia_mailclass := none }
      (fun _ => .ok { trackingNumber := "T1", finalPostage := 5, images := [] }) =
      .error (.user .mailclass_missing)) ∧
    (∃ n, ShipmentOut.make_endicia_labels testEnv
      { readyShipment with outgoing_moves := [anvilMove] }
      (fun _ => .ok { trackingNumber := "T1", finalPostage := 5, images := [] }) =
      .error (.user (.weight_required n))) :=
  ⟨make_endicia_labels_precondition_errors.1 testEnv _ _ (by decide) (by decide),
   make_endicia_labels_precondition_errors.2.1 testEnv _ _ (by decide) (by decide) (by decide),
   make_endicia_labels_precondition_errors.2.2.1 testEnv _ _
     (by decide) (by decide) (by decide) (by decide),
   make_endicia_labels_precondition_errors.2.2.2 testEnv _ _ { value := "First" }
     (by decide) (by decide) (by decide) (by decide)
     ⟨anvilMove, by decide, by decide, by decide⟩⟩

/-- C3: when every precondition holds and the vendor answers the label
request successfully, `make_endicia_labels` writes the vendor's tracking
number to `tracking_number` and the vendor's final postage to `cost`,
creates one attachment per label image of the response — each named after
the tracking number — and returns the tracking number. -/
theorem make_endicia_labels_success_persists (env : Env) (s : ShipmentOut)
    (r : LabelResponse)
    (hstate : s.state = ShipmentState.packed ∨ s.state = ShipmentState.done)
    (hcar : carrierIsEndicia s.carrier = true)
    (htr : s.trackingTruthy = false)
    (mc : MailClass) (hmc : s.endicia_mailclass = some mc)
    (w : Int) (hw : sumWeights env s.outgoing_moves = .ok w)
    (addr : Address) (haddr : s.warehouse_address = some addr) :
    s.make_endicia_labels env (fun _ => .ok r) =
      .ok
        { shipment :=
            { s with
              tracking_number := some r.trackingNumber
              cost := some r.finalPostage }
          attachments :=
            r.images.map fun img =>
              { name := r.trackingNumber ++ "_" ++ img.1 ++ "_USPS-Endicia.png"
                data := env.base64decode img.2
                resource := "stock.shipment.out," ++ toString s.id }
          returned := r.trackingNumber } := by
  unfold ShipmentOut.make_endicia_labels
  rw [if_neg (by simp [hstate]), if_neg (by simp [hcar]), if_neg (by simp [htr])]
  simp only [hmc, hw, haddr]

/-- C3 witness: a shipment passing every check, with a vendor response
carrying tracking number '94001', postage 6 and one label image; the
fields, the single attachment named after the tracking number, and the
returned value are all as claimed. -/
theorem make_endicia_labels_success_persists_witness :
    ∃ res, ShipmentOut.make_endicia_labels testEnv svcShipment (fun _ => .ok labelResp) =
        .ok res ∧
      res.shipment.tracking_number = some "94001" ∧
      res.shipment.cost = some 6 ∧
      res.attachments.map Attachment.name = ["94001_label1_USPS-Endicia.png"] ∧
      res.returned = "94001" :=
  ⟨_,
   make_endicia_labels_success_persists testEnv svcShipment labelResp
     (Or.inl rfl) rfl rfl { value := "First" } rfl 0 rfl warehouseAddr rfl,
   rfl, rfl, rfl, rfl⟩

/-- C4: when every precondition holds but the vendor raises a
`RequestError`, `make_endicia_labels` surfaces the vendor's message as the
`error_label` user error; it produces no updated record, no attachment and
no return value (the only effects of the function are carried by its
success result). -/
theorem make_endicia_labels_vendor_error (env : Env) (s : ShipmentOut)
    (msg : String)
    (hstate : s.state = ShipmentState.packed ∨ s.state = ShipmentState.done)
    (hcar : carrierIsEndicia s.carrier = true)
    (htr : s.trackingTruthy = false)
    (mc : MailClass) (hmc : s.endicia_mailclass = some mc)
    (w : Int) (hw : sumWeights env s.outgoing_moves = .ok w)
    (addr : Address) (haddr : s.warehouse_address = some addr) :
    s.make_endicia_labels env (fun _ => .error msg) =
      .error (.user (.error_label msg)) := by
  unfold ShipmentOut.make_endicia_labels
  rw [if_neg (by simp [hstate]), if_neg (by simp [hcar]), if_neg (by simp [htr])]
  simp only [hmc, hw, haddr]

/-- C4 witness: the same ready shipment, with the vendor failing; the
result is exactly the `error_label` user error wrapping the vendor's
message. -/
theorem make_endicia_labels_vendor_error_witness :
    ShipmentOut.make_endicia_labels testEnv svcShipment
      (fun _ => .error "Request timed out") =
      .error (.user (.error_label "Request timed out")) :=
  make_endicia_labels_vendor_error testEnv svcShipment "Request timed out"
    (Or.inl rfl) rfl rfl { value := "First" } rfl 0 rfl warehouseAddr rfl

/-- C10: whenever the shipment state is neither 'packed' nor 'done',
`make_endicia_labels` raises `invalid_state`, whatever every other field
holds and whatever the vendor would answer (so before any other check and
before any vendor call). -/
theorem make_endicia_labels_invalid_state_first (env : Env) (s : ShipmentOut)
    (vendor : ShippingLabelRequest → Except String LabelResponse)
    (hstate : ¬(s.state = ShipmentState.packed ∨ s.state = ShipmentState.done)) :
    s.make_endicia_labels env vendor = .error (.user .invalid_state) := by
  unfold ShipmentOut.make_endicia_labels
  rw [if_pos (by exact hstate)]

/-- C10 witness: a draft shipment that would also fail the carrier, the
tracking-number and the mail-class checks still fails with
`invalid_state`, for a vendor that would answer successfully. -/
theorem make_endicia_labels_invalid_state_first_witness :
    ShipmentOut.make_endicia_labels testEnv
      { readyShipment with
        state := .draft
        carrier := some upsCarrier
        tracking_number := some "EXISTING"
        endicia_mailclass := none }
      (fun _ => .ok { trackingNumber := "T1", finalPostage := 5, images := [] }) =
      .error (.user .invalid_state) :=
  make_endicia_labels_invalid_state_first testEnv _ _ (by decide)

/-- C7: `get_endicia_shipping_cost` raises `mailclass_missing` when the
shipment has no Endicia mail class — whatever the vendor would answer —
and otherwise sends a postage-calculation request whose weight is the sum
of `get_weight_for_endicia` over the outgoing moves (with the mail class
value and the truncated postal codes) and returns exactly the vendor's
total amount for that request. -/
theorem get_endicia_shipping_cost_spec :
    (∀ (env : Env) (s : ShipmentOut) (vendor : ShipmentOut.PostageRequest → Rat),
      s.endicia_mailclass = none →
      s.get_endicia_shipping_cost env vendor = .error (.user .mailclass_missing)) ∧
    (∀ (env : Env) (s : ShipmentOut) (vendor : ShipmentOut.PostageRequest → Rat)
       (mc : MailClass) (w : Int) (addr : Address),
      s.endicia_mailclass = some mc →
      sumWeights env s.outgoing_moves = .ok w →
      s.warehouse_address = some addr →
      s.get_endicia_shipping_cost env vendor =
        .ok (vendor
          { mailclass := mc.value
            weightoz := w
            from_postal_code := addr.zip.take 5
            to_postal_code := s.delivery_address.zip.take 5
            to_country_code := s.delivery_address.country_code })) := by
  constructor
  · intro env s vendor hmc
    unfold ShipmentOut.get_endicia_shipping_cost
    rw [hmc]
  · intro env s vendor mc w addr hmc hw haddr
    unfold ShipmentOut.get_endicia_shipping_cost
    simp only [hmc, hw, haddr]

/-- C7 witness: a shipment without mail class fails with
`mailclass_missing`; the ready shipment (service move, hence weight 0,
warehouse zip '10001', delivery zip '94107-1234', country 'US') gets
exactly the vendor's total for the assembled request. -/
theorem get_endicia_shipping_cost_spec_witness :
    (ShipmentOut.get_endicia_shipping_cost testEnv
      { svcShipment with endicia_mailclass := none } (fun _ => 19) =
      .error (.user .mailclass_missing)) ∧
    (ShipmentOut.get_endicia_shipping_cost testEnv svcShipment (fun _ => 19) =
      .ok 19) :=
  ⟨get_endicia_shipping_cost_spec.1 testEnv _ _ rfl,
   get_endicia_shipping_cost_spec.2 testEnv svcShipment (fun _ => 19)
     { value := "First" } 0 warehouseAddr rfl rfl rfl⟩

/-- When every selected shipment has an Endicia carrier, the wizard loop
collects exactly the shipments' tracking numbers as PIC numbers. -/
theorem collectPicNumbers_ok_of_all (shipments : List ShipmentOut)
    (h : ∀ sh ∈ shipments, carrierIsEndicia sh.carrier = true) :
    collectPicNumbers shipments = .ok (shipments.map ShipmentOut.tracking_number) := by
  induction shipments with
  | nil => rfl
  | cons hd tl ih =>
    unfold collectPicNumbers
    rw [if_neg (by simp [h hd (List.mem_cons_self hd tl)]),
      ih fun sh hm => h sh (List.mem_cons_of_mem hd hm)]
    rfl

/-- When some selected shipment has no carrier or a non-Endicia carrier,
the wizard loop raises `wrong_carrier`. -/
theorem collectPicNumbers_error_of_bad (shipments : List ShipmentOut)
    (h : ∃ sh ∈ shipments, carrierIsEndicia sh.carrier = false) :
    collectPicNumbers shipments = .error (.user .wrong_carrier) := by
  induction shipments with
  | nil => simp at h
  | cons hd tl ih =>
    by_cases hbad : carrierIsEndicia hd.carrier = false
    · unfold collectPicNumbers
      rw [if_pos (by simp [hbad])]
    · have hhd : carrierIsEndicia hd.carrier = true := by
        rcases Bool.eq_false_or_eq_true (carrierIsEndicia hd.carrier) with hb | hb
        · exact hb
        · exact absurd hb hbad
      have htl : ∃ sh ∈ tl, carrierIsEndicia sh.carrier = false := by
        rcases h with ⟨sh, hm, hsh⟩
        rcases List.mem_cons.mp hm with rfl | hmem
        · exact absurd hsh (by simp [hhd])
        · exact ⟨sh, hmem, hsh⟩
      unfold collectPicNumbers
      rw [if_neg (by simp [hhd]), ih htl]

/-- C6: when any selected shipment has no carrier or a carrier whose cost
method is not 'endicia', both the refund wizard and the SCAN-form wizard
raise `wrong_carrier`, whatever their vendor endpoint would answer (so
before it is called). -/
theorem wizards_wrong_carrier_before_vendor (shipments : List ShipmentOut)
    (h : ∃ sh ∈ shipments, carrierIsEndicia sh.carrier = false) :
    (∀ vendorR : List (Option String) → RefundResponse,
      EndiciaRefundRequestWizard.default_request_refund shipments vendorR =
        .error (.user .wrong_carrier)) ∧
    (∀ (env : Env) (vendorS : List (Option String) → ScanResponse),
      SCANFormWizard.default_make_scanform env shipments vendorS =
        .error (.user .wrong_carrier)) := by
  have hc := collectPicNumbers_error_of_bad shipments h
  constructor
  · intro vendorR
    unfold EndiciaRefundRequestWizard.default_request_refund
    rw [hc]
  · intro env vendorS
    unfold SCANFormWizard.default_make_scanform
    rw [hc]

/-- C6 witness: a selection holding one Endicia shipment and one shipment
with a 'ups' carrier is rejected by both wizards with `wrong_carrier`, for
vendors that would report success. -/
theorem wizards_wrong_carrier_before_vendor_witness :
    (EndiciaRefundRequestWizard.default_request_refund
      [readyShipment, { readyShipment with carrier := some upsCarrier }]
      (fun _ => { isApproved := "YES", errorMsg := "Approved" }) =
      .error (.user .wrong_carrier)) ∧
    (SCANFormWizard.default_make_scanform testEnv
      [readyShipment, { readyShipment with carrier := some upsCarrier }]
      (fun _ => { scanForm := some "Rk9STQ==", submissionID := "99", errorMsg := "" }) =
      .error (.user .wrong_carrier)) :=
  ⟨(wizards_wrong_carrier_before_vendor _
      ⟨{ readyShipment with carrier := some upsCarrier }, by simp, by decide⟩).1 _,
   (wizards_wrong_carrier_before_vendor _
      ⟨{ readyShipment with carrier := some upsCarrier }, by simp, by decide⟩).2 testEnv _⟩

/-- First of two Endicia shipments selected in the refund wizard. -/
def refundS1 : ShipmentOut := { readyShipment with id := 1, tracking_number := some "PIC1" }

/-- Second (last) of two Endicia shipments selected in the refund wizard. -/
def refundS2 : ShipmentOut := { readyShipment with id := 2, tracking_number := some "PIC2" }

/-- C5 counterexample: two Endicia shipments are selected and the vendor
approves the refund ('YES'); the wizard reports approval, yet only the
second — the Python loop variable after the carrier-checking loop — gets
`endicia_refunded = True`, while the first selected shipment keeps
`endicia_refunded = False`.  This refutes "each selected shipment has its
endicia_refunded flag set to True". -/
theorem refund_only_last_counterexample :
    EndiciaRefundRequestWizard.default_request_refund [refundS1, refundS2]
      (fun _ => { isApproved := "YES", errorMsg := "Refund approved" }) =
      .ok
        { shipments := [refundS1, { refundS2 with endicia_refunded := true }]
          refund_status := "Refund approved"
          refund_approved := true } ∧
    refundS1.endicia_refunded = false :=
  ⟨rfl, rfl⟩

/-- C5 amended: in the refund wizard, with every selected shipment having
an Endicia carrier and the selection not empty, when the vendor reports
the refund as approved ('YES') only the LAST selected shipment (the value
the loop variable leaks) has its `endicia_refunded` flag set to True and
the wizard reports `refund_approved` as True; when the vendor does not
approve, no shipment's flag is changed and the vendor's message is
displayed. -/
theorem request_refund_amended (shipments : List ShipmentOut)
    (vendor : List (Option String) → RefundResponse) (lastSh : ShipmentOut)
    (hall : ∀ sh ∈ shipments, carrierIsEndicia sh.carrier = true)
    (hlast : shipments.getLast? = some lastSh) :
    ((vendor (shipments.map ShipmentOut.tracking_number)).isApproved = "YES" →
      EndiciaRefundRequestWizard.default_request_refund shipments vendor =
        .ok
          { shipments :=
              shipments.map fun sh =>
                if sh.id = lastSh.id then { sh with endicia_refunded := true } else sh
            refund_status := (vendor (shipments.map ShipmentOut.tracking_number)).errorMsg
            refund_approved := true }) ∧
    ((vendor (shipments.map ShipmentOut.tracking_number)).isApproved ≠ "YES" →
      EndiciaRefundRequestWizard.default_request_refund shipments vendor =
        .ok
          { shipments := shipments
            refund_status := (vendor (shipments.map ShipmentOut.tracking_number)).errorMsg
            refund_approved := false }) := by
  have hc := collectPicNumbers_ok_of_all shipments hall
  constructor
  · intro hyes
    unfold EndiciaRefundRequestWizard.default_request_refund
    simp only [hc]
    rw [if_pos hyes]
    simp only [hlast]
  · intro hno
    unfold EndiciaRefundRequestWizard.default_request_refund
    simp only [hc]
    rw [if_neg hno]

/-- C5 witness: the two concrete Endicia shipments; an approving vendor
flags only the last one and reports approval, a refusing vendor changes
nothing and its message is displayed. -/
theorem request_refund_amended_witness :
    (EndiciaRefundRequestWizard.default_request_refund [refundS1, refundS2]
      (fun _ => { isApproved := "YES", errorMsg := "Refund approved" }) =
      .ok
        { shipments :=
            [refundS1, refundS2].map fun sh =>
              if sh.id = refundS2.id then { sh with endicia_refunded := true } else sh
          refund_status := "Refund approved"
          refund_approved := true }) ∧
    (EndiciaRefundRequestWizard.default_request_refund [refundS1, refundS2]
      (fun _ => { isApproved := "NO", errorMsg := "Refund not approved" }) =
      .ok
        { shipments := [refundS1, refundS2]
          refund_status := "Refund not approved"
          refund_approved := false }) :=
  ⟨(request_refund_amended [refundS1, refundS2] _ refundS2 (by decide) rfl).1 rfl,
   (request_refund_amended [refundS1, refundS2] _ refundS2 (by decide) rfl).2 (by decide)⟩

/-- A single Endicia shipment selected in the SCAN-form wizard. -/
def scanShipment : ShipmentOut := { readyShipment with id := 7, tracking_number := some "PIC7" }

/-- A SCAN-form vendor response carrying a form with submission id '99'. -/
def scanRespOk : ScanResponse :=
  { scanForm := some "Rk9STQ==", submissionID := "99", errorMsg := "" }

/-- C8 counterexample: when the vendor returns a SCAN form with submission
id '99', the wizard stores the attachment under the name 'SCAN99.png' but
displays 'SCAN99' — which is not the attachment's name — refuting
"displays that name" as stated. -/
theorem scanform_display_counterexample :
    ∃ res, SCANFormWizard.default_make_scanform testEnv [scanShipment]
        (fun _ => scanRespOk) = .ok res ∧
      res.attachments.map Attachment.name = ["SCAN99.png"] ∧
      res.response = "SCAN99" ∧
      res.response ∉ res.attachments.map Attachment.name :=
  ⟨_, rfl, rfl, rfl, by decide⟩

/-- C8 amended: both flows branch on the vendor-provided success
indicator.  The SCAN-form wizard displays the vendor's error message when
the response carries no SCANForm; otherwise it stores the decoded form as
an attachment named 'SCAN<SubmissionID>.png' (on the last selected
shipment) and displays 'SCAN<SubmissionID>', i.e. that name without its
'.png' extension.  The postage-purchase wizard displays the vendor's
ErrorMessage when present and otherwise displays 'Success', echoing back
the entered company and amount in both cases. -/
theorem scanform_buypostage_amended :
    (∀ (env : Env) (shipments : List ShipmentOut)
       (vendor : List (Option String) → ScanResponse),
      (∀ sh ∈ shipments, carrierIsEndicia sh.carrier = true) →
      (vendor (shipments.map ShipmentOut.tracking_number)).scanForm = none →
      SCANFormWizard.default_make_scanform env shipments vendor =
        .ok
          { attachments := []
            response := (vendor (shipments.map ShipmentOut.tracking_number)).errorMsg }) ∧
    (∀ (env : Env) (shipments : List ShipmentOut)
       (vendor : List (Option String) → ScanResponse)
       (lastSh : ShipmentOut) (form : String),
      (∀ sh ∈ shipments, carrierIsEndicia sh.carrier = true) →
      shipments.getLast? = some lastSh →
      (vendor (shipments.map ShipmentOut.tracking_number)).scanForm = some form →
      SCANFormWizard.default_make_scanform env shipments vendor =
        .ok
          { attachments :=
              [{ name :=
                   "SCAN" ++ (vendor (shipments.map ShipmentOut.tracking_number)).submissionID
                     ++ ".png"
                 data := env.base64decode form
                 resource := "stock.shipment.out," ++ toString lastSh.id }]
            response :=
              "SCAN" ++ (vendor (shipments.map ShipmentOut.tracking_number)).submissionID }) ∧
    (∀ (company : Int) (amount : Rat) (vendor : Rat → PostageResponse) (msg : String),
      (vendor amount).errorMessage = some msg →
      BuyPostageWizard.default_buy_postage company amount vendor =
        { company := company, amount := amount, response := msg }) ∧
    (∀ (company : Int) (amount : Rat) (vendor : Rat → PostageResponse),
      (vendor amount).errorMessage = none →
      BuyPostageWizard.default_buy_postage company amount vendor =
        { company := company, amount := amount, response := "Success" }) := by
  refine ⟨?_, ?_, ?_, ?_⟩
  · intro env shipments vendor hall hnone
    have hc := collectPicNumbers_ok_of_all shipments hall
    unfold SCANFormWizard.default_make_scanform
    simp only [hc, hnone]
  · intro env shipments vendor lastSh form hall hlast hform
    have hc := collectPicNumbers_ok_of_all shipments hall
    unfold SCANFormWizard.default_make_scanform
    simp only [hc, hform, hlast]
  · intro company amount vendor msg hmsg
    unfold BuyPostageWizard.default_buy_postage
    simp only [hmsg]
  · intro company amount vendor hnone
    unfold BuyPostageWizard.default_buy_postage
    simp only [hnone]

/-- C8 witness: the SCAN-form wizard on the concrete Endicia shipment with
a form-less response displays the vendor's message, and with a form
response stores 'SCAN99.png' and displays 'SCAN99'; the buy-postage wizard
echoes the vendor's error message when present and 'Success' otherwise. -/
theorem scanform_buypostage_amended_witness :
    (SCANFormWizard.default_make_scanform testEnv [scanShipment]
      (fun _ => { scanForm := none, submissionID := "", errorMsg := "No SCAN form" }) =
      .ok { attachments := [], response := "No SCAN form" }) ∧
    (SCANFormWizard.default_make_scanform testEnv [scanShipment] (fun _ => scanRespOk) =
      .ok
        { attachments :=
            [{ name := "SCAN99.png"
               data := testEnv.base64decode "Rk9STQ=="
               resource := "stock.shipment.out," ++ toString scanShipment.id }]
          response := "SCAN99" }) ∧
    (BuyPostageWizard.default_buy_postage 3 250 (fun _ => { errorMessage := some "Low funds" }) =
      { company := 3, amount := 250, response := "Low funds" }) ∧
    (BuyPostageWizard.default_buy_postage 3 250 (fun _ => { errorMessage := none }) =
      { company := 3, amount := 250, response := "Success" }) :=
  ⟨scanform_buypostage_amended.1 testEnv [scanShipment] _ (by decide) rfl,
   scanform_buypostage_amended.2.1 testEnv [scanShipment] _ scanShipment "Rk9STQ=="
     (by decide) rfl rfl,
   scanform_buypostage_amended.2.2.1 3 250 _ "Low funds" rfl,
   scanform_buypostage_amended.2.2.2 3 250 _ rfl⟩

end Endicia
